import Mathlib

/-!
Verification of the GIRI hazard-map tool (Tool-HazardMap) against its
natural-language specification.

The embedding models one raster cell as an IEEE-754-like value `FVal`
(NaN, plus/minus infinity, or a finite rational), since the numpy arrays
in `Hazard.py` hold floating-point cells and the algorithms are purely
cell-wise (`np.where` with comparison masks, subtraction, division).
Comparisons involving NaN are `false`, arithmetic with NaN yields NaN,
and division by zero yields a signed infinity (or NaN for 0/0), exactly
as numpy evaluates them (numpy emits a warning, not an exception).

Grids are lists of rows of `FVal`; the cell-wise numpy operations become
`map`/`zipWith` over the rows.
-/

namespace GiriHazard

/-- One floating-point raster cell: NaN, an infinity (`true` = positive),
or a finite value modelled as an exact rational. -/
inductive FVal where
  | nan : FVal
  | inf : Bool → FVal
  | fin : ℚ → FVal
deriving DecidableEq, Repr

/-- numpy `<=` on float cells: any comparison with NaN is false. -/
def FVal.le : FVal → FVal → Bool
  | .nan, _ => false
  | _, .nan => false
  | .inf b, .inf c => !b || c
  | .inf b, .fin _ => !b
  | .fin _, .inf b => b
  | .fin a, .fin c => decide (a ≤ c)

/-- numpy `<` on float cells: any comparison with NaN is false. -/
def FVal.lt : FVal → FVal → Bool
  | .nan, _ => false
  | _, .nan => false
  | .inf b, .inf c => !b && c
  | .inf b, .fin _ => !b
  | .fin _, .inf b => b
  | .fin a, .fin c => decide (a < c)

/-- numpy `==` on float cells: NaN equals nothing (not even itself). -/
def FVal.eqv : FVal → FVal → Bool
  | .nan, _ => false
  | _, .nan => false
  | .inf b, .inf c => b == c
  | .inf _, .fin _ => false
  | .fin _, .inf _ => false
  | .fin a, .fin c => decide (a = c)

/-- Predicate `np.isnan` on a float cell. -/
def FVal.isNan : FVal → Bool
  | .nan => true
  | _ => false

/-- Whether the cell holds a finite number. -/
def FVal.isFinite : FVal → Bool
  | .fin _ => true
  | _ => false

/-- IEEE subtraction: NaN propagates, same-signed infinities cancel to NaN. -/
def FVal.sub : FVal → FVal → FVal
  | .nan, _ => .nan
  | _, .nan => .nan
  | .inf b, .inf c => if b = c then .nan else .inf b
  | .inf b, .fin _ => .inf b
  | .fin _, .inf c => .inf (!c)
  | .fin a, .fin c => .fin (a - c)

/-- IEEE division as numpy evaluates it on float arrays: NaN propagates,
inf/inf is NaN, finite/inf is 0, x/0 is a signed infinity for x nonzero
and NaN for 0/0 (the zero divisor read from data is `+0`). -/
def FVal.div : FVal → FVal → FVal
  | .nan, _ => .nan
  | _, .nan => .nan
  | .inf _, .inf _ => .nan
  | .inf b, .fin c => if c < 0 then .inf (!b) else .inf b
  | .fin _, .inf _ => .fin 0
  | .fin a, .fin c =>
      if c = 0 then (if a = 0 then .nan else if 0 < a then .inf true else .inf false)
      else .fin (a / c)

/-- Multiplication of a cell by a finite scalar `k`. -/
def FVal.scale (k : ℚ) : FVal → FVal
  | .nan => .nan
  | .inf b => if 0 < k then .inf b else if k < 0 then .inf (!b) else .nan
  | .fin a => .fin (k * a)

/-- A raster grid: rows of cells. All grids of one computation are
co-registered (same shape), so cell-wise numpy operations are zips. -/
def Grid := List (List FVal)

instance : DecidableEq Grid := by unfold Grid; infer_instance

/-- Cell-wise unary numpy operation lifted to a grid. -/
def gridMap (f : FVal → FVal) (g : Grid) : Grid :=
  g.map (fun row => row.map f)

/-- Cell-wise binary numpy operation lifted to two co-registered grids. -/
def gridZip (f : FVal → FVal → FVal) (a b : Grid) : Grid :=
  List.zipWith (fun ra rb => List.zipWith f ra rb) a b

/-- The configured classification thresholds, `I_lim` of `KWARGS` in
`Hazard.py`: `[0.7, 2.0, 3.7, 5.0]`. -/
def I_LIM : List ℚ := [7/10, 2, 37/10, 5]

/-! ## `CalcHazard.ComputeRainCnt` (Hazard.py lines 186-198)

`I24norm_da = (acum24-MeanRain)/StdRain`, a cell-wise numpy expression. -/

/-- One cell of `ComputeRainCnt`: `(acum24 - MeanRain) / StdRain`.
The Python function is a total expression (numpy division by zero warns,
it does not raise), which the totality of this definition mirrors. -/
def ComputeRainCntCell (MeanRain StdRain acum24 : FVal) : FVal :=
  (acum24.sub MeanRain).div StdRain

/-- Function `ComputeRainCnt` on whole grids. -/
def ComputeRainCnt (MeanRain StdRain acum24 : Grid) : Grid :=
  gridZip FVal.div (gridZip FVal.sub acum24 MeanRain) StdRain

/-! ## `CalcHazard.ComputeRainHazard` (Hazard.py lines 200-251)

The classification loop, reproduced literally: the accumulator starts at
`np.zeros_like(aux)` and the masks compare `aux` against the loop index
`ii`, never against `I_lim[ii]`. -/

/-- One iteration of the classification loop of `ComputeRainHazard`,
acting on a single cell: `aux` is the normalized rainfall, `ii` the loop
index, `cur` the accumulator cell. -/
def rainHazardStep (aux : FVal) (ii : ℕ) (cur : FVal) : FVal :=
  if ii = 0 then
    if aux.le (.fin 0) then .fin 1 else cur
  else if ii < 3 then
    if aux.le (.fin (ii : ℚ)) && FVal.lt (.fin ((ii : ℚ) - 1)) aux then .fin ((ii : ℚ) + 1) else cur
  else
    let cur1 :=
      if aux.le (.fin (ii : ℚ)) && FVal.lt (.fin ((ii : ℚ) - 1)) aux then .fin ((ii : ℚ) + 1) else cur
    if FVal.lt (.fin (ii : ℚ)) aux then .fin ((ii : ℚ) + 2) else cur1

/-- One cell of `ComputeRainHazard`: `RainHazard_aux` starts at 0
(`np.zeros_like`) and the loop `for ii in range(len(I_lim))` runs the
masked assignments. Only `len(I_lim)` is ever read from `I_lim`. -/
def ComputeRainHazardCell (I_lim : List ℚ) (aux : FVal) : FVal :=
  (List.range I_lim.length).foldl (fun cur ii => rainHazardStep aux ii cur) (.fin 0)

/-- Function `ComputeRainHazard` on a whole grid. -/
def ComputeRainHazard (I24norm_da : Grid) (I_lim : List ℚ) : Grid :=
  gridMap (ComputeRainHazardCell I_lim) I24norm_da

/-! ## `CalcHazard.ComputeHazard` (Hazard.py lines 253-320)

`hazard_aux` starts at `np.zeros_like(susc_da)`, is set to NaN wherever
`np.isnan(susc_da)`, then sixteen masked assignments apply the lookup
table; a NaN susceptibility cell matches no mask (`NaN == k` is false),
so the NaN written first survives. -/

/-- One cell of `ComputeHazard`: the sixteen `np.where` assignments of
the hazard matrix, in source order. -/
def ComputeHazardCell (susc RainHazard : FVal) : FVal :=
  let hazard : FVal := .fin 0
  let hazard := if susc.isNan then FVal.nan else hazard
  let hazard := if susc.eqv (.fin 2) && RainHazard.eqv (.fin 2) then .fin 1 else hazard
  let hazard := if susc.eqv (.fin 2) && RainHazard.eqv (.fin 3) then .fin 2 else hazard
  let hazard := if susc.eqv (.fin 2) && RainHazard.eqv (.fin 4) then .fin 3 else hazard
  let hazard := if susc.eqv (.fin 2) && RainHazard.eqv (.fin 5) then .fin 5 else hazard
  let hazard := if susc.eqv (.fin 3) && RainHazard.eqv (.fin 2) then .fin 2 else hazard
  let hazard := if susc.eqv (.fin 3) && RainHazard.eqv (.fin 3) then .fin 3 else hazard
  let hazard := if susc.eqv (.fin 3) && RainHazard.eqv (.fin 4) then .fin 5 else hazard
  let hazard := if susc.eqv (.fin 3) && RainHazard.eqv (.fin 5) then .fin 10 else hazard
  let hazard := if susc.eqv (.fin 4) && RainHazard.eqv (.fin 2) then .fin 3 else hazard
  let hazard := if susc.eqv (.fin 4) && RainHazard.eqv (.fin 3) then .fin 5 else hazard
  let hazard := if susc.eqv (.fin 4) && RainHazard.eqv (.fin 4) then .fin 10 else hazard
  let hazard := if susc.eqv (.fin 4) && RainHazard.eqv (.fin 5) then .fin 15 else hazard
  let hazard := if susc.eqv (.fin 5) && RainHazard.eqv (.fin 2) then .fin 5 else hazard
  let hazard := if susc.eqv (.fin 5) && RainHazard.eqv (.fin 3) then .fin 10 else hazard
  let hazard := if susc.eqv (.fin 5) && RainHazard.eqv (.fin 4) then .fin 15 else hazard
  let hazard := if susc.eqv (.fin 5) && RainHazard.eqv (.fin 5) then .fin 20 else hazard
  hazard

/-- Function `ComputeHazard` on whole co-registered grids. -/
def ComputeHazard (susc_da RainHazard_aux : Grid) : Grid :=
  gridZip ComputeHazardCell susc_da RainHazard_aux

/-! ## `CalcHazard.CreateCntRain` and `CalcHazard.ReadInRainMap`
(Hazard.py lines 149-157 and 160-183) -/

/-- Source `CreateCntRain`: `np.full((nrows, ncols), self.in_acum)`. -/
def CreateCntRain (ncols nrows : ℕ) (in_acum : ℚ) : Grid :=
  List.replicate nrows (List.replicate ncols (.fin in_acum))

/-- The last step of `ReadInRainMap`, applied to each resampled cell:
`np.where(repr_acum24 < 0, np.nan, repr_acum24)` (a NaN cell compares
false, so it stays NaN). -/
def ReadInRainMapCell (v : FVal) : FVal :=
  if FVal.lt v (.fin 0) then .nan else v

/-! ## `CalcHazard.CompGiriHazard` (Hazard.py lines 322-355)

The per-tile driver. Raster reads and writes are external collaborators;
the environment supplies each one as an `Except` value (success with the
data read, or the exception it raises). The Python body has no
`try`/`except`/`finally`: any raising step propagates, and the final
`if sema is not None: sema.release()` line is reached only after every
step succeeded. The returned `ℕ` is the number of `sema.release()` calls
performed by the run. -/

/-- External-collaborator results and configuration for one tile run. -/
structure TileEnv where
  /-- Mode `self.mode` read from the parameter file: `"constant"` or `"map"`. -/
  mode : String
  /-- Thresholds `self.I_lim` from `KWARGS`. -/
  I_lim : List ℚ
  /-- Constant accumulation `self.in_acum` (constant mode). -/
  in_acum : ℚ
  /-- Shape of the susceptibility tile. -/
  ncols : ℕ
  nrows : ℕ
  /-- Result of `read_susceptibility_classified`: the susceptibility grid, or the
  exception raised while reading. -/
  readSusc : Except String Grid
  /-- Result of `ReadInRainMap`'s raster read (map mode), before the negative-cell
  masking. -/
  readRainMap : Except String Grid
  /-- Result of `OpenRainNorm`: the resampled (mean, std) grids. -/
  openRainNorm : Except String (Grid × Grid)
  /-- The raster write inside `ComputeRainHazard`. -/
  writeRainHazard : Except String Unit
  /-- The raster write inside `ComputeHazard`. -/
  writeHazard : Except String Unit

/-- The `acum24` grid of `CompGiriHazard`: constant mode builds it with
`CreateCntRain`, map mode reads and masks the rainfall raster. With any
other mode the Python code leaves `acum24` unbound and raises
`NameError` at its first use, modelled as an error. -/
def computeAcum (env : TileEnv) : Except String Grid :=
  if env.mode = "constant" then .ok (CreateCntRain env.ncols env.nrows env.in_acum)
  else if env.mode = "map" then
    match env.readRainMap with
    | .ok raw => .ok (gridMap ReadInRainMapCell raw)
    | .error e => .error e
  else .error "NameError: acum24"

/-- Source `CompGiriHazard`: the per-tile pipeline in source order. On success
it returns the rain-hazard grid, the hazard grid, and the number of
semaphore releases (1 when a semaphore was passed); an exception in any
step aborts the run with no release. -/
def CompGiriHazard (env : TileEnv) (hasSema : Bool) :
    Except String (Grid × Grid × ℕ) := do
  let susc ← env.readSusc
  let acum24 ← computeAcum env
  let (MeanRain, StdRain) ← env.openRainNorm
  let I24norm := ComputeRainCnt MeanRain StdRain acum24
  let RainHazard := ComputeRainHazard I24norm env.I_lim
  let _ ← env.writeRainHazard
  let LandsHazard := ComputeHazard susc RainHazard
  let _ ← env.writeHazard
  pure (RainHazard, LandsHazard, if hasSema then 1 else 0)

/-- Number of `sema.release()` calls a tile run performs: the release at
the end of `CompGiriHazard` is only reached when no step raised. -/
def semaReleases (env : TileEnv) (hasSema : Bool) : ℕ :=
  match CompGiriHazard env hasSema with
  | .ok (_, _, n) => n
  | .error _ => 0

/-! ## `HazardProcessor.process_rasters` and
`HazardProcessor.multi_process_rasters` (HazardProcessor.py lines 67-105)

Sequential mode runs `CompGiriHazard` for each discovered tile inside a
plain `for` loop with no exception handler: tiles processed before a
raising tile keep their outputs, the raising tile aborts the loop and
the remaining tiles are never reached. -/

/-- Sequential batch run over the discovered tiles: the produced
per-tile outputs, and the exception that aborted the loop, if any. -/
def process_rasters (envs : List TileEnv) : List (Grid × Grid) × Option String :=
  match envs with
  | [] => ([], none)
  | env :: rest =>
    match CompGiriHazard env false with
    | .ok (rh, hz, _) =>
      let (outs, err) := process_rasters rest
      ((rh, hz) :: outs, err)
    | .error e => ([], some e)

/-- Unix-glob suffix match: `pattern *X` matches a name iff the name
ends with `X` (`*` matches any sequence of characters of the name). -/
def globSuffixMatch (tail name : String) : Bool :=
  List.isSuffixOf tail.data name.data

/-- Tile discovery of the sequential mode, `process_rasters`:
`self.path_data.glob('*_sus.tif')`. -/
def discoveredSequential (files : List String) : List String :=
  files.filter (globSuffixMatch "_sus.tif")

/-- Tile discovery of the parallel mode, `multi_process_rasters`:
`self.path_data.glob('*_sus')` (note: no `.tif`, despite the comment
`# Find files that end with '_sus.tif'` directly above it). -/
def discoveredMulti (files : List String) : List String :=
  files.filter (globSuffixMatch "_sus")

/-! ## Spec-side definitions (for refinement comparison only)

`specHazardTable` transcribes the lookup table of spec section 4.3
(rows s = 2..5 by columns r = 2..5); it is the spec's words, to be
compared with `ComputeHazardCell`, which is the code. -/

/-- The spec's fixed lookup table, row `s` = susceptibility class s+2,
column `r` = rain class r+2. -/
def specHazardTable (s r : Fin 4) : ℚ :=
  ((([[1, 2, 3, 5], [2, 3, 5, 10], [3, 5, 10, 15], [5, 10, 15, 20]] :
    List (List ℚ)).getD s.val []).getD r.val 0)

/-! ## Concrete tile environments used as test inputs -/

/-- A 1x1 constant-mode tile whose every collaborator step succeeds. -/
def goodTileEnv : TileEnv where
  mode := "constant"
  I_lim := I_LIM
  in_acum := 1
  ncols := 1
  nrows := 1
  readSusc := .ok [[.fin 2]]
  readRainMap := .error "unused in constant mode"
  openRainNorm := .ok ([[.fin 0]], [[.fin 1]])
  writeRainHazard := .ok ()
  writeHazard := .ok ()

/-- The same tile but with a missing susceptibility raster: the very
first step of `CompGiriHazard` raises. -/
def failingTileEnv : TileEnv :=
  { goodTileEnv with readSusc := .error "InputNotFound" }

/-- The susceptibility grid of the spec's section 8 scenario. -/
def scenarioSusc : Grid := [[.fin 2, .fin 3], [.fin 4, .fin 5]]

/-- Mean grid making the normalized rainfall equal the raw accumulation. -/
def scenarioMean : Grid := [[.fin 0, .fin 0], [.fin 0, .fin 0]]

/-- Standard-deviation grid of ones for the scenario. -/
def scenarioStd : Grid := [[.fin 1, .fin 1], [.fin 1, .fin 1]]

/-- A map-mode tile environment whose rainfall raster holds one negative
cell, used to exercise the negative-accumulation masking. -/
def mapTileEnv : TileEnv :=
  { goodTileEnv with
    mode := "map"
    readRainMap := .ok [[.fin (-3), .fin 2]] }

/-- Closed-form value of the literal-index classification loop on one
cell (proved equal to `ComputeRainHazardCell` for any four thresholds):
a NaN cell keeps the zero initialization, an infinite cell lands in the
extreme class of its sign, and a finite cell is bucketed by the ordinal
boundaries 0, 1, 2, 3. -/
def rainClassOfIdx : FVal → FVal
  | .nan => .fin 0
  | .inf b => .fin (if b then 5 else 1)
  | .fin q =>
      .fin (if q ≤ 0 then 1 else if q ≤ 1 then 2 else if q ≤ 2 then 3 else if q ≤ 3 then 4 else 5)

end GiriHazard
namespace GiriHazard

/-! ## Helper lemmas -/

/-- The classification loop reads only the length of `I_lim`; with four
thresholds it computes `rainClassOfIdx`. -/
lemma computeRainHazardCell_four (l : List ℚ) (h : l.length = 4) (v : FVal) :
    ComputeRainHazardCell l v = rainClassOfIdx v := by
  have hr : List.range l.length = [0, 1, 2, 3] := by rw [h]; rfl
  unfold ComputeRainHazardCell
  rw [hr]
  simp only [List.foldl_cons, List.foldl_nil]
  cases v with
  | nan => simp [rainHazardStep, rainClassOfIdx, FVal.le, FVal.lt]
  | inf b => cases b <;> norm_num [rainHazardStep, rainClassOfIdx, FVal.le, FVal.lt]
  | fin q =>
    simp only [rainHazardStep, rainClassOfIdx, FVal.le, FVal.lt]
    norm_num
    rcases le_or_lt q 0 with h0 | h0
    · simp [h0, not_lt.mpr h0]
      split_ifs <;> first | rfl | (exfalso; linarith)
    · rcases le_or_lt q 1 with h1 | h1
      · simp [h0, h1, not_le.mpr h0]
        split_ifs <;> first | rfl | (exfalso; linarith)
      · rcases le_or_lt q 2 with h2 | h2
        · simp [h0, h1, h2, not_le.mpr h0, not_le.mpr h1]
          split_ifs <;> first | rfl | (exfalso; linarith)
        · rcases le_or_lt q 3 with h3 | h3
          · simp [h0, h1, h2, h3, not_le.mpr h0, not_le.mpr h1, not_le.mpr h2]
          · simp [h0, h1, h2, h3, not_le.mpr h0, not_le.mpr h1, not_le.mpr h2, not_le.mpr h3]

/-- No mask of `ComputeHazard` fires when either operand is outside the
class range 2..5, so the zero initialization survives. -/
lemma computeHazardCell_no_rule (s r : ℚ)
    (h : (s ≠ 2 ∧ s ≠ 3 ∧ s ≠ 4 ∧ s ≠ 5) ∨ (r ≠ 2 ∧ r ≠ 3 ∧ r ≠ 4 ∧ r ≠ 5)) :
    ComputeHazardCell (.fin s) (.fin r) = .fin 0 := by
  rcases h with ⟨h2, h3, h4, h5⟩ | ⟨h2, h3, h4, h5⟩ <;>
    simp [ComputeHazardCell, FVal.eqv, FVal.isNan, h2, h3, h4, h5]

/-- Scaling both operands of the IEEE subtraction by a positive scalar
scales the difference. -/
lemma scale_sub (k : ℚ) (hk : 0 < k) (a b : FVal) :
    (a.scale k).sub (b.scale k) = (a.sub b).scale k := by
  cases a <;> cases b <;>
    simp [FVal.scale, FVal.sub, hk] <;>
    first
    | (split_ifs <;> simp [FVal.scale, hk])
    | ring

/-- Scaling numerator and denominator by the same positive scalar leaves
the IEEE quotient unchanged. -/
lemma scale_div (k : ℚ) (hk : 0 < k) (a b : FVal) :
    (a.scale k).div (b.scale k) = a.div b := by
  have hk0 : k ≠ 0 := ne_of_gt hk
  cases a with
  | nan => cases b <;> simp [FVal.scale, FVal.div, hk]
  | inf s =>
    cases b with
    | nan => simp [FVal.scale, FVal.div, hk]
    | inf t => simp [FVal.scale, FVal.div, hk]
    | fin c =>
      simp only [FVal.scale, if_pos hk, FVal.div]
      rcases lt_trichotomy c 0 with h | h | h
      · rw [if_pos (by nlinarith), if_pos h]
      · subst h; simp
      · rw [if_neg (by nlinarith), if_neg (by linarith)]
  | fin a =>
    cases b with
    | nan => simp [FVal.scale, FVal.div]
    | inf t => simp [FVal.scale, FVal.div, hk]
    | fin c =>
      simp only [FVal.scale, FVal.div]
      by_cases hc : c = 0
      · subst hc
        simp [hk0, mul_eq_zero]
        by_cases ha : a = 0
        · simp [ha]
        · simp [ha]
          by_cases hpa : 0 < a
          · rw [if_pos (by nlinarith), if_pos hpa]
          · rw [if_neg (by nlinarith), if_neg hpa]
      · rw [if_neg (by simp [mul_eq_zero, hk0, hc]), if_neg hc]
        congr 1
        field_simp
        ring

/-- Cell-level scale invariance of the normalization. -/
lemma computeRainCntCell_scale (k : ℚ) (hk : 0 < k) (m s a : FVal) :
    ComputeRainCntCell (m.scale k) (s.scale k) (a.scale k) = ComputeRainCntCell m s a := by
  unfold ComputeRainCntCell
  rw [scale_sub k hk, scale_div k hk]

/-- Row-level scale invariance of the normalization. -/
lemma rowRainCnt_scale (k : ℚ) (hk : 0 < k) :
    ∀ A M S : List FVal,
      List.zipWith FVal.div
          (List.zipWith FVal.sub (A.map (FVal.scale k)) (M.map (FVal.scale k)))
          (S.map (FVal.scale k)) =
        List.zipWith FVal.div (List.zipWith FVal.sub A M) S := by
  intro A
  induction A with
  | nil => intro M S; simp
  | cons a A ih =>
    intro M S
    cases M with
    | nil => simp
    | cons m M =>
      cases S with
      | nil => simp
      | cons s S =>
        simp only [List.map_cons, List.zipWith_cons_cons, ih]
        rw [scale_sub k hk, scale_div k hk]

end GiriHazard
namespace GiriHazard

/-- Grid-level scale invariance of `ComputeRainCnt`. -/
lemma computeRainCnt_scale (k : ℚ) (hk : 0 < k) :
    ∀ MeanRain StdRain acum24 : Grid,
      ComputeRainCnt (gridMap (FVal.scale k) MeanRain) (gridMap (FVal.scale k) StdRain)
          (gridMap (FVal.scale k) acum24) =
        ComputeRainCnt MeanRain StdRain acum24 := by
  intro M
  induction M with
  | nil => intro S A; cases A <;> simp [ComputeRainCnt, gridMap, gridZip]
  | cons m M ih =>
    intro S A
    cases A with
    | nil => simp [ComputeRainCnt, gridMap, gridZip]
    | cons a A =>
      cases S with
      | nil => simp [ComputeRainCnt, gridMap, gridZip]
      | cons s S =>
        have ihr := ih S A
        simp only [ComputeRainCnt, gridMap, gridZip, List.map_cons, List.zipWith_cons_cons] at ihr ⊢
        rw [rowRainCnt_scale k hk]
        exact congrArg _ ihr

/-! ## Claim theorems -/

/-- C1: for susceptibility class s and rain class r in 2..5,
`ComputeHazard` returns the section 4.3 table value; classes matching no
rule (s = 1, r = 1, or any value outside 2..5) give 0; a NaN
susceptibility cell gives NaN regardless of the rain class. -/
theorem claim_C1_hazard_combine_table :
    (∀ s r : Fin 4,
        ComputeHazardCell (.fin ((s.val : ℚ) + 2)) (.fin ((r.val : ℚ) + 2)) =
          .fin (specHazardTable s r)) ∧
    (∀ r : FVal, ComputeHazardCell (.fin 1) r = .fin 0) ∧
    (∀ s r : ℚ,
        s = 1 ∨ r = 1 ∨ s ∉ ([2, 3, 4, 5] : List ℚ) ∨ r ∉ ([2, 3, 4, 5] : List ℚ) →
        ComputeHazardCell (.fin s) (.fin r) = .fin 0) ∧
    (∀ r : FVal, ComputeHazardCell .nan r = .nan) := by
  refine ⟨?_, ?_, ?_, ?_⟩
  · intro s r
    fin_cases s <;> fin_cases r <;>
      norm_num [ComputeHazardCell, FVal.eqv, FVal.isNan, specHazardTable]
  · intro r
    cases r <;> norm_num [ComputeHazardCell, FVal.eqv, FVal.isNan]
  · intro s r h
    apply computeHazardCell_no_rule
    rcases h with h | h | h | h
    · left; norm_num [h]
    · right; norm_num [h]
    · left; simpa [not_or] using h
    · right; simpa [not_or] using h
  · intro r
    cases r <;> simp [ComputeHazardCell, FVal.eqv, FVal.isNan]

/-- Witness for C1 at concrete inputs. -/
theorem claim_C1_hazard_combine_table_witness :
    ComputeHazardCell (.fin 7) (.fin 2) = .fin 0 :=
  claim_C1_hazard_combine_table.2.2.1 7 2 (Or.inr (Or.inr (Or.inl (by norm_num))))

end GiriHazard
namespace GiriHazard

/-- C2 (code bug): the literal classification never guards the
zero-initialized accumulator: a NaN normalized-rainfall cell receives
class value 0 — not NaN as the spec requires — and an infinite cell
receives a numeric class; every finite cell does land in 1..5. -/
theorem claim_C2_nan_cell_keeps_zero_default :
    ComputeRainHazardCell I_LIM .nan = .fin 0 ∧
    FVal.fin 0 ≠ FVal.nan ∧
    ComputeRainHazardCell I_LIM (.inf true) = .fin 5 ∧
    ∀ q : ℚ,
      ComputeRainHazardCell I_LIM (.fin q) ∈
        ([.fin 1, .fin 2, .fin 3, .fin 4, .fin 5] : List FVal) := by
  refine ⟨rfl, by decide, ?_, ?_⟩
  · rw [computeRainHazardCell_four I_LIM rfl]
    rfl
  · intro q
    rw [computeRainHazardCell_four I_LIM rfl]
    simp only [rainClassOfIdx]
    split_ifs <;> simp

/-- C3: the class grid depends only on the number of thresholds, not on
their magnitudes, because every comparison uses the loop index; on a
finite cell the class is determined by the ordinal boundaries 0,1,2,3. -/
theorem claim_C3_thresholds_ignored (g : Grid) (l1 l2 : List ℚ)
    (h1 : l1.length = 4) (h2 : l2.length = 4) :
    ComputeRainHazard g l1 = ComputeRainHazard g l2 ∧
    ∀ q : ℚ,
      ComputeRainHazardCell l1 (.fin q) =
        .fin (if q ≤ 0 then 1 else if q ≤ 1 then 2 else if q ≤ 2 then 3
              else if q ≤ 3 then 4 else 5) := by
  constructor
  · have hcell : ComputeRainHazardCell l1 = ComputeRainHazardCell l2 := by
      funext v
      rw [computeRainHazardCell_four l1 h1 v, computeRainHazardCell_four l2 h2 v]
    unfold ComputeRainHazard gridMap
    rw [hcell]
  · intro q
    rw [computeRainHazardCell_four l1 h1]
    rfl

/-- Witness for C3: the configured thresholds and an arbitrary other
four-element list classify the value 3.2 identically. -/
theorem claim_C3_thresholds_ignored_witness :
    ComputeRainHazard [[.fin (16/5)]] I_LIM =
      ComputeRainHazard [[.fin (16/5)]] [0, 1, 2, 3] :=
  (claim_C3_thresholds_ignored [[.fin (16/5)]] I_LIM [0, 1, 2, 3] rfl rfl).1

/-- Counterexample to C4 as stated: a zero standard deviation with a
nonzero numerator yields positive infinity, not NaN. -/
theorem counterexample_C4_zero_std_infinity :
    ComputeRainCntCell (.fin 0) (.fin 0) (.fin 1) = .inf true ∧
    FVal.inf true ≠ FVal.nan := by
  constructor
  · norm_num [ComputeRainCntCell, FVal.sub, FVal.div]
  · decide

/-- C4 (amended): `ComputeRainCnt` is `(acum24 - MeanRain) / StdRain`
cell-wise and total (numpy division by zero warns rather than raising);
wherever the standard deviation is zero or missing the result is
non-finite (NaN or a signed infinity), never a finite number. -/
theorem claim_C4_degenerate_std_nonfinite (MeanRain StdRain acum24 : FVal)
    (h : StdRain = .nan ∨ StdRain = .fin 0) :
    (ComputeRainCntCell MeanRain StdRain acum24).isFinite = false := by
  unfold ComputeRainCntCell
  rcases h with h | h <;> subst h
  · cases acum24.sub MeanRain <;> rfl
  · cases acum24.sub MeanRain with
    | nan => rfl
    | inf b => simp [FVal.div, FVal.isFinite]
    | fin a => simp only [FVal.div, if_pos rfl]; split_ifs <;> rfl

/-- Witness for C4 at a concrete degenerate input. -/
theorem claim_C4_degenerate_std_nonfinite_witness :
    (ComputeRainCntCell (.fin 3) (.fin 0) (.fin 7)).isFinite = false :=
  claim_C4_degenerate_std_nonfinite (.fin 3) (.fin 0) (.fin 7) (Or.inr rfl)

end GiriHazard
namespace GiriHazard

/-- Counterexample to C5 as stated: under the literal-index
classification the normalized value 3.2 exceeds the last ordinal
boundary 3 and lands in class 5, not class 4. -/
theorem counterexample_C5_value_is_class_five :
    ComputeRainHazardCell I_LIM (.fin (16/5)) = .fin 5 ∧
    FVal.fin 5 ≠ FVal.fin 4 := by
  constructor
  · rw [computeRainHazardCell_four I_LIM rfl]
    norm_num [rainClassOfIdx]
  · intro h
    cases h

/-- C5 (amended): for susceptibility [[2,3],[4,5]] and a constant-mode
normalized rainfall of 3.2 everywhere, literal-index classification
assigns class 5 everywhere and the final hazard grid is
[[5,10],[15,20]]. -/
theorem claim_C5_scenario_amended :
    ComputeRainHazard (ComputeRainCnt scenarioMean scenarioStd (CreateCntRain 2 2 (16/5))) I_LIM =
      [[.fin 5, .fin 5], [.fin 5, .fin 5]] ∧
    ComputeHazard scenarioSusc [[.fin 5, .fin 5], [.fin 5, .fin 5]] =
      [[.fin 5, .fin 10], [.fin 15, .fin 20]] := by
  constructor
  · show gridMap (ComputeRainHazardCell I_LIM) _ = _
    norm_num [ComputeRainCnt, gridMap, gridZip, CreateCntRain, scenarioMean, scenarioStd,
      List.replicate, FVal.sub, FVal.div, computeRainHazardCell_four I_LIM rfl, rainClassOfIdx]
  · norm_num [ComputeHazard, gridZip, scenarioSusc, ComputeHazardCell, FVal.eqv, FVal.isNan]

/-- C6 (code bug): `CompGiriHazard` releases the semaphore only on the
all-steps-succeed path; a tile whose susceptibility read raises performs
zero releases instead of the one the spec requires. -/
theorem claim_C6_release_skipped_on_failure :
    semaReleases goodTileEnv true = 1 ∧ semaReleases failingTileEnv true = 0 :=
  ⟨rfl, rfl⟩

/-- C7 (code bug): sequential `process_rasters` has no per-tile handler,
so a batch whose first tile raises produces no outputs at all, while the
same healthy tile alone is processed. -/
theorem claim_C7_sequential_batch_aborts :
    (process_rasters [failingTileEnv, goodTileEnv]).1 = [] ∧
    (process_rasters [failingTileEnv, goodTileEnv]).2 = some "InputNotFound" ∧
    (process_rasters [goodTileEnv]).1.length = 1 :=
  ⟨rfl, rfl, rfl⟩

/-- C8 (code bug): the sequential mode discovers `*_sus.tif` files but
the parallel mode discovers `*_sus` files, so a standard tile name is
picked up by one mode and not the other. -/
theorem claim_C8_discovery_patterns_differ :
    discoveredSequential ["tile1_sus.tif"] = ["tile1_sus.tif"] ∧
    discoveredMulti ["tile1_sus.tif"] = [] :=
  ⟨rfl, rfl⟩

/-- C9: normalization is scale invariant — multiplying accumulation,
mean, and standard deviation by the same positive scalar leaves the
normalized grid unchanged, cell-wise and grid-wise. -/
theorem claim_C9_scale_invariance (MeanRain StdRain acum24 : Grid) (k : ℚ) (hk : 0 < k) :
    ComputeRainCnt (gridMap (FVal.scale k) MeanRain) (gridMap (FVal.scale k) StdRain)
        (gridMap (FVal.scale k) acum24) =
      ComputeRainCnt MeanRain StdRain acum24 ∧
    ∀ m s a : FVal,
      ComputeRainCntCell (m.scale k) (s.scale k) (a.scale k) = ComputeRainCntCell m s a :=
  ⟨computeRainCnt_scale k hk MeanRain StdRain acum24,
   fun m s a => computeRainCntCell_scale k hk m s a⟩

/-- Witness for C9 with scalar 2 on a concrete 1x1 grid. -/
theorem claim_C9_scale_invariance_witness :
    ComputeRainCnt (gridMap (FVal.scale 2) [[.fin 1]]) (gridMap (FVal.scale 2) [[.fin 3]])
        (gridMap (FVal.scale 2) [[.fin 5]]) =
      ComputeRainCnt [[.fin 1]] [[.fin 3]] [[.fin 5]] :=
  (claim_C9_scale_invariance [[.fin 1]] [[.fin 3]] [[.fin 5]] 2 (by norm_num)).1

/-- C10: `ReadInRainMap` turns every negative resampled accumulation
cell into NaN, no negative value survives the masking, and in map mode
`CompGiriHazard` hands exactly the masked grid to the normalization. -/
theorem claim_C10_negative_rain_masked (v : FVal) :
    (FVal.lt v (.fin 0) = true → ReadInRainMapCell v = .nan) ∧
    FVal.lt (ReadInRainMapCell v) (.fin 0) = false ∧
    ∀ (e : TileEnv) (raw : Grid), e.mode = "map" → e.readRainMap = .ok raw →
      computeAcum e = .ok (gridMap ReadInRainMapCell raw) := by
  refine ⟨?_, ?_, ?_⟩
  · intro h
    simp [ReadInRainMapCell, h]
  · unfold ReadInRainMapCell
    by_cases h : FVal.lt v (.fin 0) = true
    · rw [if_pos h]
      rfl
    · rw [if_neg h]
      simpa using h
  · intro e raw hm hr
    simp [computeAcum, hm, hr]

/-- Witness for C10: a negative cell is masked, and the concrete
map-mode environment passes the masked grid on. -/
theorem claim_C10_negative_rain_masked_witness :
    ReadInRainMapCell (.fin (-1)) = .nan ∧
    computeAcum mapTileEnv = .ok (gridMap ReadInRainMapCell [[.fin (-3), .fin 2]]) :=
  ⟨(claim_C10_negative_rain_masked (.fin (-1))).1 (by norm_num [FVal.lt]),
   (claim_C10_negative_rain_masked .nan).2.2 mapTileEnv [[.fin (-3), .fin 2]] rfl rfl⟩

end GiriHazard
